import Mathlib

/-!
Shallow embedding of the ai-interview-trainer backend
(src/apps/backend/main.py, the streaming revision, and
src/apps/backend/main.backup.preflight.py, the non-streaming revision)
together with theorems settling the specification claims.

Modelling conventions:
- uuid identifiers are opaque; we use Nat.  Fresh uuid4 values are passed
  in as explicit parameters.
- the relational store is a record of three lists kept in insertion order;
  created_at ordering is list order.
- the external completion provider is an explicit argument: in the
  non-streaming revision an Except value (error message or decoded body),
  in the streaming revision a list of optional content chunks plus an
  optional error raised after them.
- json.loads from the Python standard library is out of scope per the
  specification; it is passed in as an oracle function returning none on a
  JSONDecodeError and the decoded object otherwise.
- Python round(x, 1) is modelled exactly over the rationals as
  round-half-to-even of 10 * x divided by 10.
-/

namespace AITrainer

/-! ## Data model (tables sessions, turns, scores) -/

structure Session where
  id : Nat
  role_profile : String
deriving DecidableEq, Repr

structure Turn where
  id : Nat
  session_id : Nat
  q_text : String
  a_text : Option String
deriving DecidableEq, Repr

/-- One row of the scores table.  The insert statements pass values coming
from dict.get, which can be Python None, so every column is optional here;
turn_id is optional because the backup revision can pass a missing id. -/
structure Score where
  turn_id : Option Nat
  content : Option Int
  structure_col : Option Int
  comms : Option Int
deriving DecidableEq, Repr

structure DB where
  sessions : List Session
  turns : List Turn
  scores : List Score
deriving DecidableEq, Repr

/-- SELECT role_profile FROM sessions WHERE id = :session_id -/
def findSession (db : DB) (sid : Nat) : Option Session :=
  db.sessions.find? (fun s => s.id == sid)

/-- SELECT ... FROM turns WHERE session_id = :session_id ORDER BY created_at ASC -/
def sessionTurns (db : DB) (sid : Nat) : List Turn :=
  db.turns.filter (fun t => t.session_id == sid)

/-- The turns of the session whose a_text IS NULL, in creation order. -/
def openTurns (db : DB) (sid : Nat) : List Turn :=
  db.turns.filter (fun t => t.session_id == sid && t.a_text.isNone)

/-- main.py line 87: SELECT id FROM turns WHERE session_id = :session_id
AND a_text IS NULL ORDER BY created_at DESC LIMIT 1 -/
def lastOpenTurn (db : DB) (sid : Nat) : Option Turn :=
  (openTurns db sid).getLast?

/-- backup line 99: SELECT id FROM turns WHERE session_id = :session_id
ORDER BY created_at DESC LIMIT 1 (note: no a_text IS NULL filter). -/
def lastTurn (db : DB) (sid : Nat) : Option Turn :=
  (sessionTurns db sid).getLast?

/-- UPDATE turns SET a_text = :a_text WHERE id = :id -/
def attachAnswer (db : DB) (tid : Nat) (a : String) : DB :=
  { db with
    turns := db.turns.map (fun t =>
      if t.id == tid then { t with a_text := some a } else t) }

/-! ## Python string helpers used by the streaming parser -/

/-- Python str.split with the three-character separator typed as the bar
sentinel: leftmost, non-overlapping occurrences, keeping empty pieces. -/
def splitBarsAux : List Char → List Char → List (List Char)
  | acc, '|' :: '|' :: '|' :: rest => acc.reverse :: splitBarsAux [] rest
  | acc, c :: rest => splitBarsAux (c :: acc) rest
  | acc, [] => [acc.reverse]

def pySplitBars (s : String) : List String :=
  (splitBarsAux [] s.data).map String.mk

/-- The whitespace characters removed by Python str.strip. -/
def pyIsSpace (c : Char) : Bool :=
  c == ' ' || c == '\t' || c == '\n' || c == '\r' || c == '\x0b' || c == '\x0c'

/-- Python str.strip. -/
def pyStrip (s : String) : String :=
  String.mk (((s.data.dropWhile pyIsSpace).reverse.dropWhile pyIsSpace).reverse)

/-! ## Streaming answer endpoint (main.py lines 73-126) -/

/-- The decoded value of the score JSON object; each dict.get result is
optional (Python None when the key is missing). -/
structure ScoresJson where
  content : Option Int
  structure_col : Option Int
  communication : Option Int
deriving DecidableEq, Repr

/-- main.py line 115: the record substituted on a JSONDecodeError. -/
def fallbackScores : ScoresJson := ⟨some 0, some 0, some 0⟩

/-- The provider stream: the optional delta.content values delivered,
then optionally an exception (err) raised by the async iterator. -/
structure ProviderStream where
  chunks : List (Option String)
  err : Option String
deriving Repr

/-- main.py lines 98-103: the accumulate-and-yield loop.  Returns the list
of fragments yielded to the client and the accumulated full_response.
A chunk whose content is None or empty is neither yielded nor accumulated
(the Python truthiness test on content). -/
def streamLoop : List (Option String) → String → List String × String
  | [], acc => ([], acc)
  | none :: rest, acc => streamLoop rest acc
  | some c :: rest, acc =>
    if c = "" then streamLoop rest acc
    else
      let r := streamLoop rest (acc ++ c)
      (c :: r.1, r.2)

/-- main.py lines 75-124, the generator body.  Every exception inside the
try block (including the HTTPException values raised for an unknown
session or a missing open turn, and a provider stream error) is caught by
the blanket except and yielded as a STREAM_ERROR chunk; the function is
total, so no fault escapes to the transport layer.  Returns the fragments
yielded to the client and the final database state. -/
def stream_generator (db : DB) (sid : Nat) (answer_text : String)
    (ps : ProviderStream) (jloads : String → Option ScoresJson)
    (newTurnId : Nat) : List String × DB :=
  match findSession db sid with
  | none => (["STREAM_ERROR: 404: Session not found"], db)
  | some _ =>
    match lastOpenTurn db sid with
    | none => (["STREAM_ERROR: 400: No open question found."], db)
    | some lastOpen =>
      let db1 := attachAnswer db lastOpen.id answer_text
      let r := streamLoop ps.chunks ""
      match ps.err with
      | some msg => (r.1 ++ ["STREAM_ERROR: " ++ msg], db1)
      | none =>
        let parts := pySplitBars r.2
        if 3 ≤ parts.length then
          let scores_json_text := pyStrip (parts.getD 1 "")
          let next_question_text := pyStrip (parts.getD 2 "")
          let scores_data := (jloads scores_json_text).getD fallbackScores
          let db2 := { db1 with
            scores := db1.scores ++
              [⟨some lastOpen.id, scores_data.content,
                scores_data.structure_col, scores_data.communication⟩] }
          let db3 :=
            if next_question_text ≠ "INTERVIEW_COMPLETE" then
              { db2 with
                turns := db2.turns ++ [⟨newTurnId, sid, next_question_text, none⟩] }
            else db2
          (r.1, db3)
        else (r.1, db1)

structure StreamResponse where
  status : Nat
  body : List String
deriving DecidableEq, Repr

/-- main.py line 126: the endpoint wraps the generator in a
StreamingResponse, whose HTTP status is always 200. -/
def process_answer_streaming (db : DB) (sid : Nat) (answer_text : String)
    (ps : ProviderStream) (jloads : String → Option ScoresJson)
    (newTurnId : Nat) : StreamResponse × DB :=
  let r := stream_generator db sid answer_text ps jloads newTurnId
  (⟨200, r.1⟩, r.2)

/-! ## Non-streaming answer endpoint (backup lines 85-126) -/

structure HttpError where
  status : Nat
  detail : String
deriving DecidableEq, Repr

structure ScoresOut where
  content : Int
  structure_col : Int
  communication : Int
deriving DecidableEq, Repr

structure Feedback where
  bullets : List String
  scores : ScoresOut
deriving DecidableEq, Repr

structure AnswerResponse where
  feedback : Feedback
  next_question : Option String
deriving DecidableEq, Repr

/-- The JSON object decoded from the provider reply in the backup
revision; each field is the optional value of one key. -/
structure AiJson where
  scores : Option ScoresJson
  feedback_bullets : Option (List String)
  next_question : Option String

/-- backup lines 86-126.  The provider argument is Except: error means the
acompletion call raised; ok none means json.loads raised a decode error on
the returned content; ok (some j) is the decoded object.  The whole body
up to the second transaction sits in a try whose blanket except re-raises
every exception, the internally raised HTTPException(404) included, as an
HTTPException with status 500.  The final pydantic validation
Scores(**scores_data) happens outside the try: a missing key there is an
unhandled error, which FastAPI reports as a plain 500; the second
transaction has already committed at that point. -/
def process_answer (db : DB) (sid : Nat) (answer_text : String)
    (provider : Except String (Option AiJson)) (newTurnId : Nat) :
    Except HttpError AnswerResponse × DB :=
  match findSession db sid with
  | none => (.error ⟨500, "Error processing answer: 404: Session not found"⟩, db)
  | some _ =>
    let db1 :=
      match lastTurn db sid with
      | some t => attachAnswer db t.id answer_text
      | none => db
    match provider with
    | .error msg => (.error ⟨500, "Error processing answer: " ++ msg⟩, db1)
    | .ok none => (.error ⟨500, "Error processing answer: Expecting value"⟩, db1)
    | .ok (some j) =>
      let scores_data := j.scores.getD fallbackScores
      let feedback_bullets := j.feedback_bullets.getD ["No feedback provided."]
      let next_question := j.next_question
      let db2 := { db1 with
        scores := db1.scores ++
          [⟨(lastTurn db sid).map Turn.id, scores_data.content,
            scores_data.structure_col, scores_data.communication⟩] }
      let db3 :=
        match next_question with
        | some q =>
          if q = "" then db2
          else { db2 with turns := db2.turns ++ [⟨newTurnId, sid, q, none⟩] }
        | none => db2
      match scores_data.content, scores_data.structure_col,
            scores_data.communication with
      | some c, some s, some m =>
        (.ok ⟨⟨feedback_bullets, ⟨c, s, m⟩⟩, next_question⟩, db3)
      | _, _, _ => (.error ⟨500, "Internal Server Error"⟩, db3)

/-! ## Start endpoint (main.py lines 64-71) -/

structure StartResponse where
  session_id : Nat
  first_question : String
deriving DecidableEq, Repr

/-- main.py lines 64-71: inserts one session row and one turn row with
a_text NULL; the question is templated from the role profile with no
completion-provider call (the function takes no provider argument). -/
def start_interview_session (db : DB) (role_profile : String)
    (sid newTurnId : Nat) : DB × StartResponse :=
  let first_question :=
    "Välkommen. För rollen som " ++ role_profile ++
    ", kan du berätta om ett specifikt projekt eller en prestation som du är särskilt stolt över?"
  ({ db with
      sessions := db.sessions ++ [⟨sid, role_profile⟩],
      turns := db.turns ++ [⟨newTurnId, sid, first_question, none⟩] },
   ⟨sid, first_question⟩)

/-! ## Report endpoint (backup lines 129-180) -/

/-- Python round to one decimal place over the rationals: round-half-even
of 10 * x, divided by 10 (CPython rounds a float half to even). -/
def roundHalfEven (x : ℚ) : ℤ :=
  let f := ⌊x⌋
  let r := x - f
  if r < 1 / 2 then f
  else if 1 / 2 < r then f + 1
  else if f % 2 = 0 then f else f + 1

def round1 (x : ℚ) : ℚ := (roundHalfEven (10 * x) : ℚ) / 10

/-- backup lines 144-151: SELECT s.content, s.structure, s.comms FROM
scores s JOIN turns t ON s.turn_id = t.id WHERE t.session_id = :session_id
AND t.a_text IS NOT NULL. -/
def reportScores (db : DB) (sid : Nat) : List Score :=
  db.scores.filter (fun sc =>
    (db.turns.find? (fun t =>
      sc.turn_id == some t.id && t.session_id == sid && t.a_text.isSome)).isSome)

/-- Extracts the three integer columns of each row; none when some column
is NULL (summing a Python None raises, which the blanket except turns
into a 500). -/
def scoreVals (l : List Score) : Option (List (Int × Int × Int)) :=
  l.mapM (fun sc => do
    let c ← sc.content
    let s ← sc.structure_col
    let m ← sc.comms
    pure (c, s, m))

def avg_content (vals : List (Int × Int × Int)) : ℚ :=
  ((vals.map (fun v => (v.1 : ℚ))).sum) / vals.length

def avg_structure (vals : List (Int × Int × Int)) : ℚ :=
  ((vals.map (fun v => (v.2.1 : ℚ))).sum) / vals.length

def avg_communication (vals : List (Int × Int × Int)) : ℚ :=
  ((vals.map (fun v => (v.2.2 : ℚ))).sum) / vals.length

structure ReportMetrics where
  avg_content : ℚ
  avg_structure : ℚ
  avg_communication : ℚ
  overall_avg : ℚ
deriving DecidableEq, Repr

/-- The report payload.  The Python final_summary is one string embedding
two conditionally chosen dimension names; the strongest and weakest
fields here are exactly those two embedded choices (backup line 171). -/
structure FinalReportResponse where
  session_id : Nat
  role_profile : String
  metrics : ReportMetrics
  strongest : String
  weakest : String
deriving DecidableEq, Repr

/-- backup lines 129-180.  The internally raised HTTPException(404) values
are caught by the blanket except at line 179 and re-raised as status 500,
so the client observes 500 in every failure case. -/
def get_final_report (db : DB) (sid : Nat) :
    Except HttpError FinalReportResponse :=
  match findSession db sid with
  | none => .error ⟨500, "Failed to generate report: 404: Session not found"⟩
  | some sess =>
    let rows := reportScores db sid
    if rows.isEmpty then
      .error ⟨500, "Failed to generate report: 404: No scores found for this session."⟩
    else
      match scoreVals rows with
      | none => .error ⟨500, "Failed to generate report: unsupported operand type"⟩
      | some vals =>
        let avgC := avg_content vals
        let avgS := avg_structure vals
        let avgM := avg_communication vals
        let overall := (avgC + avgS + avgM) / 3
        let metrics : ReportMetrics :=
          ⟨round1 avgC, round1 avgS, round1 avgM, round1 overall⟩
        let strongest := if avgC > avgS then "Content" else "Structure"
        let weakest := if avgM < avgS then "Communication" else "Structure"
        .ok ⟨sid, sess.role_profile, metrics, strongest, weakest⟩

/-! ## Concrete fixtures used by witnesses and counterexamples -/

/-- An empty store. -/
def dbEmpty : DB := ⟨[], [], []⟩

/-- One session whose single turn is already answered, with no score rows. -/
def dbScoreless : DB := ⟨[⟨1, "dev"⟩], [⟨10, 1, "q1", some "a1"⟩], []⟩

/-- One session, one open turn. -/
def dbOpen : DB := ⟨[⟨1, "dev"⟩], [⟨10, 1, "q1", none⟩], []⟩

/-- One session, one answered turn, one score row 80 / 60 / 70. -/
def dbC5 : DB :=
  ⟨[⟨1, "dev"⟩], [⟨10, 1, "q1", some "a1"⟩],
   [⟨some 10, some 80, some 60, some 70⟩]⟩

/-- The report the code produces for dbC5. -/
def rC5 : FinalReportResponse :=
  ⟨1, "dev", ⟨80, 60, 70, 70⟩, "Content", "Structure"⟩

/-- A json.loads oracle that always reports a decode error. -/
def jlNone : String → Option ScoresJson := fun _ => none

/-! ## Helper lemmas -/

/-- The fragments yielded by the chunk loop concatenate, onto the
accumulator, to the accumulated full response. -/
theorem streamLoop_foldl (chunks : List (Option String)) (acc : String) :
    (streamLoop chunks acc).1.foldl (fun a b => a ++ b) acc
      = (streamLoop chunks acc).2 := by
  induction chunks generalizing acc with
  | nil => rfl
  | cons c rest ih =>
    cases c with
    | none => exact ih acc
    | some s =>
      by_cases h : s = ""
      · simp only [streamLoop, if_pos h]
        exact ih acc
      · simp only [streamLoop, if_neg h, List.foldl_cons]
        exact ih (acc ++ s)

/-- When at most one turn of the session is open and the open-turn query
returns L, the open turns are exactly [L]. -/
theorem openTurns_eq_singleton (db : DB) (sid : Nat) (L : Turn)
    (h1 : (openTurns db sid).length ≤ 1) (hL : lastOpenTurn db sid = some L) :
    openTurns db sid = [L] := by
  rcases List.getLast?_eq_some_iff.1 hL with ⟨ys, hys⟩
  have hlen := congrArg List.length hys
  simp only [List.length_append, List.length_singleton] at hlen
  have : ys.length = 0 := by omega
  rw [List.eq_nil_of_length_eq_zero this] at hys
  simpa using hys

/-- A turn returned by the open-turn query is a member of the turn table
of the session with a_text NULL. -/
theorem lastOpenTurn_mem (db : DB) (sid : Nat) (L : Turn)
    (hL : lastOpenTurn db sid = some L) :
    L ∈ db.turns ∧ L.session_id = sid ∧ L.a_text = none := by
  have hmem : L ∈ openTurns db sid := by
    rcases List.getLast?_eq_some_iff.1 hL with ⟨ys, hys⟩
    rw [hys]
    exact List.mem_append.2 (Or.inr (by simp))
  have hp := List.of_mem_filter hmem
  simp only [Bool.and_eq_true, beq_iff_eq, Option.isNone_iff_eq_none] at hp
  exact ⟨(List.mem_filter.1 hmem).1, hp.1, hp.2⟩

/-- After attaching the answer to the single open turn, the session has
no open turn left. -/
theorem openTurns_attach_eq_nil (db : DB) (sid : Nat) (L : Turn) (a : String)
    (h1 : (openTurns db sid).length ≤ 1) (hL : lastOpenTurn db sid = some L) :
    openTurns (attachAnswer db L.id a) sid = [] := by
  have hsingle := openTurns_eq_singleton db sid L h1 hL
  apply List.filter_eq_nil_iff.2
  intro t ht
  rcases List.mem_map.1 ht with ⟨u, hu, rfl⟩
  by_cases hid : u.id = L.id
  · simp [hid]
  · simp only [beq_iff_eq, hid, if_false, if_neg]
    intro hopen
    have hmem : u ∈ openTurns db sid :=
      List.mem_filter.2 ⟨hu, hopen⟩
    rw [hsingle] at hmem
    simp only [List.mem_singleton] at hmem
    exact hid (by rw [hmem])

/-- Case analysis of the streaming generator final database: either the
call failed before the first write and the store is untouched, or the
answer was attached to the open turn L and the turn table is that update,
possibly followed by one new open turn holding the next question. -/
theorem stream_generator_db_cases (db : DB) (sid : Nat) (ans : String)
    (ps : ProviderStream) (jloads : String → Option ScoresJson) (tid : Nat) :
    (stream_generator db sid ans ps jloads tid).2 = db
    ∨ ∃ L, lastOpenTurn db sid = some L ∧
      ((stream_generator db sid ans ps jloads tid).2.turns
          = (attachAnswer db L.id ans).turns
       ∨ ∃ q, (stream_generator db sid ans ps jloads tid).2.turns
          = (attachAnswer db L.id ans).turns ++ [⟨tid, sid, q, none⟩]) := by
  cases hx : findSession db sid with
  | none => exact Or.inl (by simp [stream_generator, hx])
  | some s =>
    cases hy : lastOpenTurn db sid with
    | none => exact Or.inl (by simp [stream_generator, hx, hy])
    | some L =>
      refine Or.inr ⟨L, rfl, ?_⟩
      simp only [stream_generator, hx, hy]
      cases hz : ps.err with
      | some msg => exact Or.inl rfl
      | none =>
        by_cases hp : 3 ≤ (pySplitBars (streamLoop ps.chunks "").2).length
        · rw [if_pos hp]
          by_cases hq : pyStrip ((pySplitBars (streamLoop ps.chunks "").2).getD 2 "")
              ≠ "INTERVIEW_COMPLETE"
          · rw [if_pos hq]
            exact Or.inr ⟨_, rfl⟩
          · rw [if_neg hq]
            exact Or.inl rfl
        · rw [if_neg hp]
          exact Or.inl rfl

/-- Round-half-to-even lands within one half of its argument. -/
theorem abs_roundHalfEven_sub_le (x : ℚ) : |(roundHalfEven x : ℚ) - x| ≤ 1 / 2 := by
  have h0 : (0 : ℚ) ≤ x - ⌊x⌋ := by
    have h := Int.fract_nonneg x
    rwa [← Int.self_sub_floor] at h
  have h1 : x - ⌊x⌋ < 1 := by
    have h := Int.fract_lt_one x
    rwa [← Int.self_sub_floor] at h
  simp only [roundHalfEven]
  split
  · rename_i hr
    rw [abs_le]
    constructor <;> linarith
  · split
    · rename_i hr hr2
      rw [abs_le]
      push_cast
      constructor <;> linarith
    · split
      · rename_i hr hr2 hev
        rw [abs_le]
        constructor <;> linarith
      · rename_i hr hr2 hev
        rw [abs_le]
        push_cast
        constructor <;> linarith

/-- Rounding to one decimal place lands within one twentieth. -/
theorem abs_round1_sub_le (x : ℚ) : |round1 x - x| ≤ 1 / 20 := by
  have h := abs_roundHalfEven_sub_le (10 * x)
  unfold round1
  rw [show (roundHalfEven (10 * x) : ℚ) / 10 - x
      = ((roundHalfEven (10 * x) : ℚ) - 10 * x) / 10 by ring]
  rw [abs_div, show |(10 : ℚ)| = 10 by norm_num]
  linarith

/-- Evaluation of the report on the fixture with the single score row
80 / 60 / 70. -/
theorem report_eval_dbC5 : get_final_report dbC5 1 = .ok rC5 := by
  have h1 : findSession dbC5 1 = some ⟨1, "dev"⟩ := rfl
  have h2 : reportScores dbC5 1 = [⟨some 10, some 80, some 60, some 70⟩] := rfl
  have h3 : scoreVals [(⟨some 10, some 80, some 60, some 70⟩ : Score)]
      = some [(80, 60, 70)] := rfl
  simp only [get_final_report, h1, h2, h3, List.isEmpty, rC5]
  norm_num [avg_content, avg_structure, avg_communication, round1, roundHalfEven]

/-! ## Claim theorems -/

/-- C4: the report endpoint raises HTTPException(404) internally for an
unknown session and for a session with no scored turns, but the blanket
except clause at backup line 179 re-raises both as status 500, so the
client observes 500, not 404, in both cases. -/
theorem C4_report_404_swallowed_to_500 :
    get_final_report dbEmpty 1
      = .error ⟨500, "Failed to generate report: 404: Session not found"⟩
    ∧ get_final_report dbScoreless 1
      = .error ⟨500, "Failed to generate report: 404: No scores found for this session."⟩ :=
  ⟨rfl, rfl⟩

/-- C7 (amended): start inserts exactly one session row and one turn row
with a_text absent, touches no score row, calls no completion provider
(the function takes no provider argument), and returns the fresh session
id together with the question text, which is templated verbatim from the
role profile and is non-empty; an empty role profile is NOT replaced by a
default, it is embedded verbatim. -/
theorem C7_start_creates_session_and_open_turn
    (db : DB) (role : String) (sid tid : Nat) :
    (start_interview_session db role sid tid).1.sessions = db.sessions ++ [⟨sid, role⟩]
    ∧ (start_interview_session db role sid tid).1.turns
        = db.turns ++ [⟨tid, sid, (start_interview_session db role sid tid).2.first_question, none⟩]
    ∧ (start_interview_session db role sid tid).1.scores = db.scores
    ∧ (start_interview_session db role sid tid).2.session_id = sid
    ∧ (start_interview_session db role sid tid).2.first_question
        = "Välkommen. För rollen som " ++ role ++
          ", kan du berätta om ett specifikt projekt eller en prestation som du är särskilt stolt över?"
    ∧ 0 < (start_interview_session db role sid tid).2.first_question.length := by
  refine ⟨rfl, rfl, rfl, rfl, rfl, ?_⟩
  show 0 < ("Välkommen. För rollen som " ++ role ++
    ", kan du berätta om ett specifikt projekt eller en prestation som du är särskilt stolt över?").length
  rw [String.length_append, String.length_append]
  have h : 0 < "Välkommen. För rollen som ".length := by decide
  omega

/-- C7 counterexample: with an empty role profile, no configured default
role is substituted; the session row stores the empty string and the
question embeds the empty string verbatim. -/
theorem C7_counterexample :
    (start_interview_session dbEmpty "" 1 2).1.sessions = [⟨1, ""⟩]
    ∧ (start_interview_session dbEmpty "" 1 2).2.first_question
        = "Välkommen. För rollen som , kan du berätta om ett specifikt projekt eller en prestation som du är särskilt stolt över?" :=
  ⟨rfl, rfl⟩

/-- C8: whenever the provider stream raises after delivering its chunks,
the streaming generator ends the body with one final fragment prefixed by
the STREAM_ERROR marker; the generator is a total function, so no fault
reaches the transport layer (the earlier 404 and 400 paths are likewise
in-band STREAM_ERROR fragments, covered by the first two cases of the
proof). -/
theorem C8_stream_error_surfaced_in_band
    (db : DB) (sid : Nat) (ans msg : String) (chunks : List (Option String))
    (jloads : String → Option ScoresJson) (tid : Nat) :
    ∃ e, (stream_generator db sid ans ⟨chunks, some msg⟩ jloads tid).1.getLast?
        = some ("STREAM_ERROR: " ++ e) := by
  cases hx : findSession db sid with
  | none =>
    exact ⟨"404: Session not found", by simp [stream_generator, hx]⟩
  | some s =>
    cases hy : lastOpenTurn db sid with
    | none =>
      exact ⟨"400: No open question found.", by simp [stream_generator, hx, hy]⟩
    | some L =>
      refine ⟨msg, ?_⟩
      simp only [stream_generator, hx, hy]
      exact List.getLast?_concat _

/-- C9: when the accumulated response splits on the bar sentinel into
fewer than three parts, the post-stream persistence step is skipped: the
stream ends normally with exactly the forwarded fragments, no score row
is inserted, no turn row is inserted, and the only change is the answer
attached to the open turn in the first transaction. -/
theorem C9_short_response_skips_persistence
    (db : DB) (sid : Nat) (ans : String) (chunks : List (Option String))
    (jloads : String → Option ScoresJson) (tid : Nat) (s : Session) (L : Turn)
    (hs : findSession db sid = some s) (hL : lastOpenTurn db sid = some L)
    (hshort : (pySplitBars (streamLoop chunks "").2).length < 3) :
    stream_generator db sid ans ⟨chunks, none⟩ jloads tid
      = ((streamLoop chunks "").1, attachAnswer db L.id ans)
    ∧ (stream_generator db sid ans ⟨chunks, none⟩ jloads tid).2.scores = db.scores
    ∧ (stream_generator db sid ans ⟨chunks, none⟩ jloads tid).2.turns.length
        = db.turns.length := by
  have h : stream_generator db sid ans ⟨chunks, none⟩ jloads tid
      = ((streamLoop chunks "").1, attachAnswer db L.id ans) := by
    simp only [stream_generator, hs, hL]
    rw [if_neg (by omega)]
  refine ⟨h, ?_, ?_⟩
  · rw [h]
    rfl
  · rw [h]
    simp [attachAnswer]

/-- C9 witness at a concrete store: one chunk with no sentinel. -/
theorem C9_witness :
    stream_generator dbOpen 1 "my answer" ⟨[some "hello"], none⟩ jlNone 99
      = (["hello"], attachAnswer dbOpen 10 "my answer")
    ∧ (stream_generator dbOpen 1 "my answer" ⟨[some "hello"], none⟩ jlNone 99).2.scores
        = dbOpen.scores
    ∧ (stream_generator dbOpen 1 "my answer" ⟨[some "hello"], none⟩ jlNone 99).2.turns.length
        = dbOpen.turns.length :=
  C9_short_response_skips_persistence dbOpen 1 "my answer" [some "hello"] jlNone 99
    ⟨1, "dev"⟩ ⟨10, 1, "q1", none⟩ rfl rfl (by decide)

/-- C10: in an error-free streaming run, the fragments yielded to the
client are exactly the loop fragments, and their concatenation equals the
accumulated full response that the generator then splits on the sentinel
and persists. -/
theorem C10_stream_equals_parsed_text
    (db : DB) (sid : Nat) (ans : String) (chunks : List (Option String))
    (jloads : String → Option ScoresJson) (tid : Nat) (s : Session) (L : Turn)
    (hs : findSession db sid = some s) (hL : lastOpenTurn db sid = some L) :
    (stream_generator db sid ans ⟨chunks, none⟩ jloads tid).1 = (streamLoop chunks "").1
    ∧ (stream_generator db sid ans ⟨chunks, none⟩ jloads tid).1.foldl
        (fun a b => a ++ b) "" = (streamLoop chunks "").2 := by
  have h1 : (stream_generator db sid ans ⟨chunks, none⟩ jloads tid).1
      = (streamLoop chunks "").1 := by
    simp only [stream_generator, hs, hL]
    split <;> rfl
  exact ⟨h1, by rw [h1]; exact streamLoop_foldl chunks ""⟩

/-- C10 witness at a concrete store and a two-chunk stream. -/
theorem C10_witness :
    (stream_generator dbOpen 1 "a" ⟨[some "fb|||sc", some "|||next"], none⟩ jlNone 99).1
      = (streamLoop [some "fb|||sc", some "|||next"] "").1
    ∧ (stream_generator dbOpen 1 "a" ⟨[some "fb|||sc", some "|||next"], none⟩ jlNone 99).1.foldl
        (fun a b => a ++ b) "" = (streamLoop [some "fb|||sc", some "|||next"] "").2 :=
  C10_stream_equals_parsed_text dbOpen 1 "a" [some "fb|||sc", some "|||next"] jlNone 99
    ⟨1, "dev"⟩ ⟨10, 1, "q1", none⟩ rfl rfl

/-- C1 counterexample: in the non-streaming revision a provider call
failure is NOT absorbed into a 200 response with fallback content; the
blanket except re-raises it and the client receives HTTP 500 carrying the
provider error, refuting the claim that provider failure is never
propagated as a user-facing error. -/
theorem C1_counterexample :
    (process_answer dbOpen 1 "my answer" (.error "APIConnectionError") 99).1
      = .error ⟨500, "Error processing answer: APIConnectionError"⟩ := rfl

/-- C1 (amended): the streaming revision never aborts the user-visible
response — the HTTP status is 200 for every provider outcome, a stream
error is surfaced only as a final STREAM_ERROR fragment, and an
unparseable score section (with three sentinel-separated parts present)
falls back to the scores 0 / 0 / 0, which lie in [0,100]; the
non-streaming revision instead propagates a provider failure to the user
as HTTP 500. -/
theorem C1_provider_failure_paths
    (db : DB) (sid : Nat) (ans msg : String) (chunks : List (Option String))
    (jloads : String → Option ScoresJson) (tid : Nat) (s : Session) (L : Turn)
    (hs : findSession db sid = some s) (hL : lastOpenTurn db sid = some L) :
    (∀ ps, (process_answer_streaming db sid ans ps jloads tid).1.status = 200)
    ∧ (stream_generator db sid ans ⟨chunks, some msg⟩ jloads tid).1
        = (streamLoop chunks "").1 ++ ["STREAM_ERROR: " ++ msg]
    ∧ (process_answer db sid ans (.error msg) tid).1
        = .error ⟨500, "Error processing answer: " ++ msg⟩
    ∧ (3 ≤ (pySplitBars (streamLoop chunks "").2).length →
       jloads (pyStrip ((pySplitBars (streamLoop chunks "").2).getD 1 "")) = none →
       (stream_generator db sid ans ⟨chunks, none⟩ jloads tid).2.scores
         = db.scores ++ [⟨some L.id, some 0, some 0, some 0⟩]) := by
  refine ⟨fun ps => rfl, ?_, ?_, ?_⟩
  · simp only [stream_generator, hs, hL]
  · simp only [process_answer, hs]
  · intro hparts hj
    simp only [stream_generator, hs, hL]
    rw [if_pos hparts, hj]
    split <;> rfl

/-- C1 witness: a session with one open turn, a failing provider stream,
and a malformed score section. -/
theorem C1_witness :
    (stream_generator dbOpen 1 "a" ⟨[some "x|||y|||z"], some "boom"⟩ jlNone 99).1
      = (streamLoop [some "x|||y|||z"] "").1 ++ ["STREAM_ERROR: boom"]
    ∧ (process_answer dbOpen 1 "a" (.error "boom") 99).1
        = .error ⟨500, "Error processing answer: boom"⟩
    ∧ (stream_generator dbOpen 1 "a" ⟨[some "x|||y|||z"], none⟩ jlNone 99).2.scores
        = dbOpen.scores ++ [⟨some 10, some 0, some 0, some 0⟩] := by
  have h := C1_provider_failure_paths dbOpen 1 "a" "boom" [some "x|||y|||z"] jlNone 99
    ⟨1, "dev"⟩ ⟨10, 1, "q1", none⟩ rfl rfl
  exact ⟨h.2.1, h.2.2.1, h.2.2.2 (by decide) rfl⟩

/-- C3 counterexample: the streaming answer endpoint with an unknown
session id replies with transport status 200 and an in-band STREAM_ERROR
fragment, not with the HTTP 404 the claim says the client observes. -/
theorem C3_counterexample :
    (process_answer_streaming dbEmpty 1 "a" ⟨[], none⟩ jlNone 5).1.status = 200
    ∧ (process_answer_streaming dbEmpty 1 "a" ⟨[], none⟩ jlNone 5).1.body
        = ["STREAM_ERROR: 404: Session not found"] :=
  ⟨rfl, rfl⟩

/-- C3 (amended): the streaming endpoint detects the unknown-session and
no-open-turn conditions, but the client observes HTTP 200 with an in-band
STREAM_ERROR fragment naming the intended 404 or 400; the non-streaming
revision re-raises the internal 404 as HTTP 500, and every error it can
return to the client has status 500 (it has no 400 path at all). -/
theorem C3_observed_statuses
    (db : DB) (sid : Nat) (ans : String) (ps : ProviderStream)
    (jloads : String → Option ScoresJson) (tid : Nat)
    (prov : Except String (Option AiJson)) :
    (findSession db sid = none →
      process_answer_streaming db sid ans ps jloads tid
        = (⟨200, ["STREAM_ERROR: 404: Session not found"]⟩, db))
    ∧ (findSession db sid ≠ none → lastOpenTurn db sid = none →
      process_answer_streaming db sid ans ps jloads tid
        = (⟨200, ["STREAM_ERROR: 400: No open question found."]⟩, db))
    ∧ (findSession db sid = none →
      (process_answer db sid ans prov tid).1
        = .error ⟨500, "Error processing answer: 404: Session not found"⟩)
    ∧ (∀ e, (process_answer db sid ans prov tid).1 = .error e → e.status = 500) := by
  refine ⟨?_, ?_, ?_, ?_⟩
  · intro h
    simp [process_answer_streaming, stream_generator, h]
  · intro h1 h2
    cases hx : findSession db sid with
    | none => exact absurd hx h1
    | some s => simp [process_answer_streaming, stream_generator, hx, h2]
  · intro h
    simp [process_answer, h]
  · intro e he
    unfold process_answer at he
    cases hx : findSession db sid <;> rw [hx] at he
    · injection he with he
      rw [← he]
    · cases prov with
      | error m =>
        injection he with he
        rw [← he]
      | ok jo =>
        cases jo with
        | none =>
          injection he with he
          rw [← he]
        | some j =>
          simp only [] at he
          split at he
          · exact absurd he (by simp)
          · injection he with he
            rw [← he]

/-- C2 counterexample: the non-streaming revision selects the most recent
turn of the session with no a_text IS NULL filter (backup line 99), so on
a session whose only turn is already answered it OVERWRITES that a_text,
refuting the claim that the answer is attached only to a turn whose
a_text is absent and that a_text is written at most once. -/
theorem C2_counterexample :
    dbScoreless.turns = [⟨10, 1, "q1", some "a1"⟩]
    ∧ (process_answer dbScoreless 1 "new answer"
          (.ok (some ⟨some ⟨some 50, some 50, some 50⟩, some ["b"], some "next q"⟩))
          99).2.turns.find? (fun t => t.id == 10)
        = some ⟨10, 1, "q1", some "new answer"⟩ :=
  ⟨rfl, rfl⟩

/-- C2 (amended): the STREAMING revision keeps the open-question
discipline — assuming distinct turn ids and at most one open turn before
the call, the turn selected for the answer has a_text absent, every
already-answered turn keeps its row unchanged, and after the call at most
one turn of the session has a_text absent.  (The non-streaming backup
revision violates the discipline; see the counterexample.) -/
theorem C2_streaming_answer_discipline
    (db : DB) (sid : Nat) (ans : String) (ps : ProviderStream)
    (jloads : String → Option ScoresJson) (tid : Nat)
    (hnd : (db.turns.map Turn.id).Nodup)
    (h1 : (openTurns db sid).length ≤ 1) :
    (∀ L, lastOpenTurn db sid = some L → L.a_text = none)
    ∧ (openTurns ((stream_generator db sid ans ps jloads tid).2) sid).length ≤ 1
    ∧ (∀ t ∈ db.turns, t.a_text.isSome →
        t ∈ ((stream_generator db sid ans ps jloads tid).2).turns) := by
  refine ⟨fun L hL => (lastOpenTurn_mem db sid L hL).2.2, ?_, ?_⟩
  · rcases stream_generator_db_cases db sid ans ps jloads tid with h | ⟨L, hL, h⟩
    · rw [h]
      exact h1
    · have hnil := openTurns_attach_eq_nil db sid L ans h1 hL
      rcases h with h | ⟨q, h⟩
      · have : openTurns ((stream_generator db sid ans ps jloads tid).2) sid
            = openTurns (attachAnswer db L.id ans) sid := by
          simp only [openTurns, h, attachAnswer]
        rw [this, hnil]
        simp
      · have : openTurns ((stream_generator db sid ans ps jloads tid).2) sid
            = openTurns (attachAnswer db L.id ans) sid
              ++ List.filter (fun t => t.session_id == sid && t.a_text.isNone)
                  [⟨tid, sid, q, none⟩] := by
          simp only [openTurns, h, attachAnswer, List.filter_append]
        rw [this, hnil]
        simp
  · intro t ht hsome
    rcases stream_generator_db_cases db sid ans ps jloads tid with h | ⟨L, hL, h⟩
    · rw [h]
      exact ht
    · rcases lastOpenTurn_mem db sid L hL with ⟨hLmem, _, hLnone⟩
      have htne : t.id ≠ L.id := by
        intro he
        have hteq : t = L := List.inj_on_of_nodup_map hnd ht hLmem he
        rw [hteq, hLnone] at hsome
        simp at hsome
      have hmem1 : t ∈ (attachAnswer db L.id ans).turns := by
        have hm := List.mem_map_of_mem
          (fun u => if u.id == L.id then { u with a_text := some ans } else u) ht
        simpa [attachAnswer, htne] using hm
      rcases h with h | ⟨q, h⟩ <;> rw [h]
      · exact hmem1
      · exact List.mem_append.2 (Or.inl hmem1)

/-- C2 witness: one open turn, a well-formed three-part stream. -/
theorem C2_witness :
    (openTurns ((stream_generator dbOpen 1 "my answer"
        ⟨[some "fb|||sc|||next q"], none⟩ jlNone 99).2) 1).length ≤ 1 :=
  (C2_streaming_answer_discipline dbOpen 1 "my answer"
    ⟨[some "fb|||sc|||next q"], none⟩ jlNone 99 (by decide) (by decide)).2.1

/-- C3 witness: an unknown session and a session with no open turn. -/
theorem C3_witness :
    process_answer_streaming dbEmpty 1 "a" ⟨[], none⟩ jlNone 5
      = (⟨200, ["STREAM_ERROR: 404: Session not found"]⟩, dbEmpty)
    ∧ process_answer_streaming dbScoreless 1 "a" ⟨[], none⟩ jlNone 5
      = (⟨200, ["STREAM_ERROR: 400: No open question found."]⟩, dbScoreless)
    ∧ (process_answer dbEmpty 1 "a" (.ok none) 5).1
        = .error ⟨500, "Error processing answer: 404: Session not found"⟩ :=
  ⟨(C3_observed_statuses dbEmpty 1 "a" ⟨[], none⟩ jlNone 5 (.ok none)).1 rfl,
   (C3_observed_statuses dbScoreless 1 "a" ⟨[], none⟩ jlNone 5 (.ok none)).2.1
     (by decide) rfl,
   (C3_observed_statuses dbEmpty 1 "a" ⟨[], none⟩ jlNone 5 (.ok none)).2.2.1 rfl⟩

/-- C5 counterexample: for the single score 80 / 60 / 70 the claim (and
the specification scenario E) says the weakest dimension is
communication, but the code compares only communication against
structure (backup line 171) and reports Structure. -/
theorem C5_counterexample :
    get_final_report dbC5 1 = .ok rC5 ∧ rC5.weakest = "Structure" :=
  ⟨report_eval_dbC5, rfl⟩

/-- C5 (amended): the summary chooses the strongest dimension as Content
exactly when avg_content exceeds avg_structure and as Structure otherwise
(communication is never reported strongest), and the weakest as
Communication exactly when avg_communication is below avg_structure and
as Structure otherwise (content is never reported weakest); no three-way
comparison or precedence tie-break is performed. -/
theorem C5_strongest_weakest
    (db : DB) (sid : Nat) (r : FinalReportResponse)
    (vals : List (Int × Int × Int))
    (h : get_final_report db sid = .ok r)
    (hv : scoreVals (reportScores db sid) = some vals) :
    r.strongest
      = (if avg_content vals > avg_structure vals then "Content" else "Structure")
    ∧ r.weakest
      = (if avg_communication vals < avg_structure vals then "Communication" else "Structure")
    ∧ (r.strongest = "Content" ∨ r.strongest = "Structure")
    ∧ (r.weakest = "Communication" ∨ r.weakest = "Structure") := by
  simp only [get_final_report] at h
  cases hx : findSession db sid <;> rw [hx] at h
  · simp at h
  · split at h
    · simp at h
    · rw [hv] at h
      simp only [] at h
      split at h
      · simp at h
      · injection h with h
        subst h
        refine ⟨rfl, rfl, ?_, ?_⟩
        · by_cases hc : avg_content vals > avg_structure vals
          · exact Or.inl (by simp [hc])
          · exact Or.inr (by simp [hc])
        · by_cases hc : avg_communication vals < avg_structure vals
          · exact Or.inl (by simp [hc])
          · exact Or.inr (by simp [hc])

/-- C5 witness at the 80 / 60 / 70 fixture. -/
theorem C5_witness :
    rC5.strongest
      = (if avg_content [(80, 60, 70)] > avg_structure [(80, 60, 70)]
          then "Content" else "Structure")
    ∧ rC5.weakest
      = (if avg_communication [(80, 60, 70)] < avg_structure [(80, 60, 70)]
          then "Communication" else "Structure")
    ∧ (rC5.strongest = "Content" ∨ rC5.strongest = "Structure")
    ∧ (rC5.weakest = "Communication" ∨ rC5.weakest = "Structure") :=
  C5_strongest_weakest dbC5 1 rC5 [(80, 60, 70)] report_eval_dbC5 rfl

/-- C6: for every session the report can be produced for, the metrics are
the per-dimension means and the overall mean of the three unrounded
per-dimension means, each rounded to one decimal place, and the returned
overall_avg lies within 0.1 of the mean of the three rounded
per-dimension averages. -/
theorem C6_report_metrics
    (db : DB) (sid : Nat) (r : FinalReportResponse)
    (vals : List (Int × Int × Int))
    (h : get_final_report db sid = .ok r)
    (hv : scoreVals (reportScores db sid) = some vals) :
    r.metrics.avg_content = round1 (avg_content vals)
    ∧ r.metrics.avg_structure = round1 (avg_structure vals)
    ∧ r.metrics.avg_communication = round1 (avg_communication vals)
    ∧ r.metrics.overall_avg
        = round1 ((avg_content vals + avg_structure vals + avg_communication vals) / 3)
    ∧ |r.metrics.overall_avg
        - (r.metrics.avg_content + r.metrics.avg_structure
            + r.metrics.avg_communication) / 3| ≤ 1 / 10 := by
  simp only [get_final_report] at h
  cases hx : findSession db sid <;> rw [hx] at h
  · simp at h
  · split at h
    · simp at h
    · rw [hv] at h
      simp only [] at h
      split at h
      · simp at h
      · injection h with h
        subst h
        refine ⟨rfl, rfl, rfl, rfl, ?_⟩
        have ha := abs_round1_sub_le (avg_content vals)
        have hb := abs_round1_sub_le (avg_structure vals)
        have hc := abs_round1_sub_le (avg_communication vals)
        have hm := abs_round1_sub_le
          ((avg_content vals + avg_structure vals + avg_communication vals) / 3)
        rw [abs_le] at ha hb hc hm ⊢
        constructor <;> simp only [neg_le_sub_iff_le_add] at * <;> linarith

/-- C6 witness at the 80 / 60 / 70 fixture. -/
theorem C6_witness :
    rC5.metrics.avg_content = round1 (avg_content [(80, 60, 70)])
    ∧ rC5.metrics.avg_structure = round1 (avg_structure [(80, 60, 70)])
    ∧ rC5.metrics.avg_communication = round1 (avg_communication [(80, 60, 70)])
    ∧ rC5.metrics.overall_avg
        = round1 ((avg_content [(80, 60, 70)] + avg_structure [(80, 60, 70)]
            + avg_communication [(80, 60, 70)]) / 3)
    ∧ |rC5.metrics.overall_avg
        - (rC5.metrics.avg_content + rC5.metrics.avg_structure
            + rC5.metrics.avg_communication) / 3| ≤ 1 / 10 :=
  C6_report_metrics dbC5 1 rC5 [(80, 60, 70)] report_eval_dbC5 rfl

end AITrainer
